import Mathlib

/-!
Shallow embedding of the two web extensions of this repository —
`queue.js` (the QUEUE node controller) and `core_cozy_menu.js` (the
widget-to-input context-menu extension) — together with proofs about the
behaviour of their handlers.

Modelling conventions:
* JS numbers that only ever hold non-negative integers are `Nat`; the numeric
  VAL widget value is `Int`.
* JS `undefined` is `Option.none`; dereferencing `undefined` raises a
  `TypeError`, modelled by `JSError.typeError`.  Handlers that can throw
  return the state paired with `Option JSError`; mutations performed before
  the throwing statement persist, exactly as in JS.
* Purely cosmetic host calls (`app.canvas.setDirty`, `fitHeight`,
  `flashBackgroundColor`) have no observable effect on the modelled state and
  are not modelled.
* The node property `this.widget_queue` is tracked by the boolean field
  `widget_queue_assigned`: no statement of the sources ever assigns it, so in
  every reachable state the field is `false` and reading
  `this.widget_queue.value` throws.  When it is `true` the property would
  alias the Q widget, whose text is the field `queueText`.
-/

/-- JS runtime exceptions this code can raise: every fatal path in the two
sources is a TypeError from dereferencing `undefined`. -/
inductive JSError
  | typeError
  deriving DecidableEq

/-- JS `String.prototype.split('\n')` restricted to the newline separator,
written as structural recursion over the character list so that it reduces in
the kernel.  Agrees with JS: splitting the empty string gives `[""]`, a
trailing newline yields a trailing empty piece. -/
def jsSplitNewlineAux : List Char → List Char → List (List Char)
  | [], acc => [acc.reverse]
  | c :: cs, acc =>
    if c = '\n' then acc.reverse :: jsSplitNewlineAux cs []
    else jsSplitNewlineAux cs (c :: acc)

/-- JS `value.split('\n')` on a string. -/
def jsSplitNewline (t : String) : List String :=
  (jsSplitNewlineAux t.toList []).map (fun l => String.mk l)

/-- JS `Array.prototype.join('\n')`, i.e. the pieces interleaved with single
newlines (`[].join` is the empty string). -/
def jsJoinNewline : List String → String
  | [] => ""
  | [a] => a
  | a :: rest => a ++ "\n" ++ jsJoinNewline rest

/-- Character-list core of JS `String.prototype.startsWith`. -/
def jsStartsWithAux : List Char → List Char → Bool
  | [], _ => true
  | _ :: _, [] => false
  | p :: ps, c :: cs => p == c && jsStartsWithAux ps cs

/-- JS `s.startsWith(pre)`. -/
def jsStartsWith (s pre : String) : Bool :=
  jsStartsWithAux pre.toList s.toList

/-- Character-list core of JS `String.prototype.includes`. -/
def jsContainsAux (sub : List Char) : List Char → Bool
  | [] => sub.isEmpty
  | c :: cs => jsStartsWithAux sub (c :: cs) || jsContainsAux sub cs

/-- JS `s.includes(sub)`. -/
def jsIncludes (s sub : String) : Bool :=
  jsContainsAux sub.toList s.toList

/-- The `_prefix` constant of queue.js: the placeholder glyph "🦄" used as the
default name of output socket 0. -/
def placeholderGlyph : String := "🦄"

/-- State of one QUEUE node, as mutated by queue.js.  Fields `data_index`,
`data_count`, `data_current`, `data_all` and the `widget_queue_assigned`
property mirror the JS object properties of the same names; `queueText` is the
value of the Q text widget, `widget_report` the value of the created report
widget, `outputs0Name` is `this.outputs[0].name`.  `holdHidden` /
`resetHidden` model the visibility flags toggled by `widget_hide` /
`widget_show` (modelled from the spec, see `widget_value_callback`).
`commands` accumulates the outbound `api_cmd_jovian` commands (modelled from
the spec: fire-and-forget `sendCommand(nodeId, "reset")`). -/
structure QueueState where
  id : Nat
  data_index : Nat
  data_count : Option Nat
  data_current : String
  data_all : List String
  widget_report : String
  queueText : String
  widget_queue_assigned : Bool
  outputs0Name : String
  holdHidden : Bool
  resetHidden : Bool
  resetValue : Bool
  valueVal : Int
  commands : List (Nat × String)
  deriving DecidableEq

/-- queue.js `update_report`: writes `"[<data_index> / <data_all.length>]\n<data_current>"`
into the report widget.  The `app.canvas.setDirty(true)` call is cosmetic and
not modelled. -/
def update_report (s : QueueState) : QueueState :=
  { s with widget_report :=
      "[" ++ toString s.data_index ++ " / " ++ toString s.data_all.length
        ++ "]\n" ++ s.data_current }

/-- queue.js `update_list(self, value)`: sets `data_count` to the length of
`value` (note: NOT `data_all`, which it leaves untouched), resets `data_index`
to 1 and `data_current` to the empty string, recomputes the report and sends a
"reset" command keyed by the node id. -/
def update_list (s : QueueState) (value : List String) : QueueState :=
  let s1 := { s with
    data_count := some value.length
    data_index := 1
    data_current := "" }
  let s2 := update_report s1
  { s2 with commands := s2.commands ++ [(s2.id, "reset")] }

/-- queue.js: the `input` listener installed on the Q widget, which splits the
widget text on newlines and calls `update_list`. -/
def widget_queue_input (s : QueueState) : QueueState :=
  update_list s (jsSplitNewline s.queueText)

/-- queue.js: the callback installed on the VAL widget.  `widget_hide` /
`widget_show` are modelled from the spec (util_widget.js is not in src): they
set / clear a hidden flag on the widget.  The trailing `fitHeight` is
cosmetic. -/
def widget_value_callback (s : QueueState) : QueueState :=
  let s1 := { s with holdHidden := true, resetHidden := true }
  if s1.valueVal = 0 then { s1 with resetHidden := false, holdHidden := false }
  else s1

/-- queue.js: the callback installed on the RESET widget: clears the toggle
and sends a "reset" command (api_cmd_jovian modelled from the spec). -/
def widget_reset_callback (s : QueueState) : QueueState :=
  let s1 := { s with resetValue := false }
  { s1 with commands := s1.commands ++ [(s1.id, "reset")] }

/-- Payload of the "jovi-queue-ping" progress event: `{ id, i, l, c }`. -/
structure PingEvent where
  id : Nat
  i : Nat
  l : List String
  c : String
  deriving DecidableEq

/-- Payload of the "jovi-queue-done" event: `{ id }`. -/
structure DoneEvent where
  id : Nat
  deriving DecidableEq

/-- queue.js `python_queue_ping`: ignores events whose id differs from the
node id; otherwise overwrites `data_index`, `data_all`, `data_current` from
the payload and recomputes the report. -/
def python_queue_ping (s : QueueState) (ev : PingEvent) : QueueState :=
  if ev.id ≠ s.id then s
  else update_report
    { s with data_index := ev.i, data_all := ev.l, data_current := ev.c }

/-- queue.js `python_queue_done`: ignores events whose id differs; on a match
it evaluates `self.widget_queue.inputEl` — but no statement of queue.js ever
assigns `self.widget_queue`, so in every reachable state this dereference of
`undefined` throws a TypeError before the (cosmetic) background flash. -/
def python_queue_done (s : QueueState) (ev : DoneEvent) :
    QueueState × Option JSError :=
  if ev.id ≠ s.id then (s, none)
  else if s.widget_queue_assigned then (s, none)
  else (s, some JSError.typeError)

/-- Options bag of a downstream widget; `values` is the enumeration list of a
combo widget (`undefined` when absent). -/
structure DWOptions where
  values : Option (List String)
  deriving DecidableEq

/-- A widget of a downstream node, as inspected by the link callbacks. -/
structure DWidget where
  name : String
  type : String
  origType : Option String
  options : Option DWOptions
  deriving DecidableEq

/-- An input slot record of a downstream node (only its name is read). -/
structure InputSlotRec where
  name : String
  deriving DecidableEq

/-- A downstream node: its `inputs` and `widgets` arrays, each possibly
`undefined`. -/
structure DNode where
  inputs : Option (List InputSlotRec)
  widgets : Option (List DWidget)
  deriving DecidableEq

/-- Result of the `onConnectOutput` gate: explicit `return false` (reject),
fall-through to the saved original handler (here `undefined`, so the link
proceeds), or a thrown TypeError. -/
inductive ConnectOutcome
  | reject
  | fallthrough
  | thrown
  deriving DecidableEq

/-- queue.js `onConnectOutput`: for output index 0 and a "COMBO" input it
looks the downstream widget up by the input-slot name (throws if the widgets
array is `undefined`), then evaluates
`this.outputs[0].name != _prefix && this.widget_queue.value != widget.options.values.join('\n')`.
JS `&&` short-circuits, so when the output socket still bears the placeholder
name nothing after the first conjunct is evaluated; otherwise
`this.widget_queue.value` is read, which throws whenever the `widget_queue`
property is unassigned (it always is), and after that `widget.options.values`
would throw on a failed lookup.  Only when the full condition evaluates to
`true` does the gate return `false`. -/
def onConnectOutput (s : QueueState) (outputIndex : Nat) (inputType : String)
    (inputSlot : InputSlotRec) (inputNode : DNode) : ConnectOutcome :=
  if outputIndex = 0 then
    if inputType = "COMBO" then
      match inputNode.widgets with
      | none => ConnectOutcome.thrown
      | some ws =>
        let widget := ws.find? (fun w => w.name == inputSlot.name)
        if s.outputs0Name ≠ placeholderGlyph then
          if s.widget_queue_assigned then
            match widget with
            | none => ConnectOutcome.thrown
            | some w =>
              match w.options with
              | none => ConnectOutcome.thrown
              | some o =>
                match o.values with
                | none => ConnectOutcome.thrown
                | some vs =>
                  if s.queueText ≠ jsJoinNewline vs then ConnectOutcome.reject
                  else ConnectOutcome.fallthrough
          else ConnectOutcome.thrown
        else ConnectOutcome.fallthrough
    else ConnectOutcome.fallthrough
  else ConnectOutcome.fallthrough

/-- Modelled from the spec: the slot-type enumeration of util.js (input vs
output), which is not in src. -/
inductive TypeSlot
  | Input
  | Output
  deriving DecidableEq

/-- Modelled from the spec: the link-event enumeration of util.js (connect vs
disconnect), which is not in src. -/
inductive TypeSlotEvent
  | Connect
  | Disconnect
  deriving DecidableEq

/-- The link-info record handed to `onConnectionsChange`. -/
structure LinkInfo where
  target_id : Nat
  target_slot : Nat
  deriving DecidableEq

/-- The host graph, as far as `app.graph.getNodeById` is concerned. -/
def getNodeById (g : List (Nat × DNode)) (id : Nat) : Option DNode :=
  (g.find? (fun p => p.1 == id)).map Prod.snd

/-- The downstream resolution chain of `onConnectionsChange` (queue.js lines
135-147): node by `target_id` (early return when the node or its `inputs`
array is `undefined`), the input slot at `target_slot` (early return when
absent), then `node.widgets?.find` by the slot name (the optional chain makes
a missing widgets array yield `undefined`, another early return).  Each
failing step makes the handler return with the state unchanged, so the chain
is factored out as one lookup. -/
def resolveDownstreamWidget (g : List (Nat × DNode)) (li : LinkInfo) :
    Option DWidget :=
  match getNodeById g li.target_id with
  | none => none
  | some node =>
    match node.inputs with
    | none => none
    | some inputs =>
      match inputs[li.target_slot]? with
      | none => none
      | some target =>
        node.widgets.bind (fun ws => ws.find? (fun w => w.name == target.name))

/-- queue.js `onConnectionsChange`: only acts on output-slot-0 events.  With
`link_info` present and a Connect event it resolves the downstream widget (see
`resolveDownstreamWidget`; any failing step returns with the state unchanged);
on success it renames the output socket to the widget name, and — when the
widget is a combo (`origType == "combo"` or `type == "COMBO"`) — reads
`widget.options.values` (TypeError when `options` or `values` is `undefined`)
and assigns `this.widget_queue.value = values.join('\n')`, which throws a
TypeError whenever the `widget_queue` property is unassigned (it always is);
only past that would `update_list` run.  On a Disconnect event, or when
`link_info` is absent, the output socket name reverts to the placeholder
glyph. -/
def onConnectionsChange (s : QueueState) (slotType : TypeSlot) (slot : Nat)
    (event : TypeSlotEvent) (link_info : Option LinkInfo)
    (g : List (Nat × DNode)) : QueueState × Option JSError :=
  if slotType = TypeSlot.Output ∧ slot = 0 then
    match link_info with
    | some li =>
      if event = TypeSlotEvent.Connect then
        match resolveDownstreamWidget g li with
        | none => (s, none)
        | some widget =>
          let s1 := { s with outputs0Name := widget.name }
          if widget.origType = some "combo" ∨ widget.type = "COMBO" then
            match widget.options with
            | none => (s1, some JSError.typeError)
            | some o =>
              match o.values with
              | none => (s1, some JSError.typeError)
              | some vs =>
                if s1.widget_queue_assigned then
                  let s2 := { s1 with queueText := jsJoinNewline vs }
                  (update_list s2 vs, none)
                else (s1, some JSError.typeError)
          else (s1, none)
      else ({ s with outputs0Name := placeholderGlyph }, none)
    | none => ({ s with outputs0Name := placeholderGlyph }, none)
  else (s, none)

/-- State of a QUEUE node right after a successful `onNodeCreated` run:
`data_index = 1`, `data_current = ""`, `data_all = []`; `data_count` is never
initialized (undefined); the `widget_queue` node property is never assigned;
the output socket carries the placeholder glyph; no command sent yet. -/
def initState (id : Nat) (qText : String) (valV : Int) : QueueState :=
  { id := id
    data_index := 1
    data_count := none
    data_current := ""
    data_all := []
    widget_report := ""
    queueText := qText
    widget_queue_assigned := false
    outputs0Name := placeholderGlyph
    holdHidden := false
    resetHidden := false
    resetValue := false
    valueVal := valV
    commands := [] }

/-- Modelled from the spec: the distinguished widget-type string
`CONVERTED_TYPE` of util_widget.js (not in src) marking a widget already
converted to an input; the menu code only ever compares `widget.type` against
it. -/
def CONVERTED_TYPE : String := "converted-widget"

/-- A widget of the node owning the context menu.  `forceInput` and `menu`
model `widget.options?.forceInput` and `widget.options?.menu` (`none` when the
options bag or the field is absent). -/
structure CWidget where
  name : String
  type : String
  forceInput : Option Bool
  menu : Option Bool
  deriving DecidableEq

/-- The action carried by a context-menu entry: either the widget-to-input
conversion closure `() => convertToInput(this, widget, widgetType)`
(convertToInput modelled from the spec, util_widget.js is not in src), or an
opaque action contributed by another extension. -/
inductive MenuAction
  | convertAction (widgetName : String) (widgetType : String)
  | extAction (tag : Nat)
  deriving DecidableEq

/-- A context-menu option: a `{content, callback}` entry or the `null`
separator. -/
inductive MenuEntry
  | separator
  | entry (content : String) (action : MenuAction)
  deriving DecidableEq

/-- core_cozy_menu.js: the `convertToInputArray` built in
`getExtraMenuOptions`: one entry per declared (name, type) pair whose widget
exists, is not already converted, has no `forceInput`, and is not opted out by
`menu: false`.  The entry label is the literal `"Convsert <name> to input"`
of the source (sic). -/
def convertToInputArray (widgets : List CWidget)
    (matchingTypes : List (String × String)) : List MenuEntry :=
  matchingTypes.filterMap (fun nt =>
    match widgets.find? (fun m => m.name == nt.1) with
    | none => none
    | some w =>
      if w.type ≠ CONVERTED_TYPE ∧
          (w.forceInput = none ∨ w.forceInput = some false) ∧
          w.menu ≠ some false then
        some (MenuEntry.entry ("Convsert " ++ w.name ++ " to input")
          (MenuAction.convertAction w.name nt.2))
      else none)

/-- core_cozy_menu.js: the predicate of the `options.filter` call — keep an
option when its content is not a string (the `null` separators) or does not
start with "Convert". -/
def keepOption (e : MenuEntry) : Bool :=
  match e with
  | MenuEntry.separator => true
  | MenuEntry.entry c _ => !(jsStartsWith c "Convert")

/-- Outcome of one `getExtraMenuOptions` run: `callerOptions` is the array
object the caller passed in (the one the host menu displays), `localOptions`
the array the local variable `options` points to when the function returns. -/
structure MenuHookResult where
  callerOptions : List MenuEntry
  localOptions : List MenuEntry
  deriving DecidableEq

/-- core_cozy_menu.js `getExtraMenuOptions` body.  JS aliasing is tracked
explicitly: `options.filter(...)` allocates a NEW array, the assignment
`options = options.filter(...)` rebinds only the local variable to that copy,
and the subsequent `options.push(...convertToInputArray, null)` mutates the
copy — the caller's array object is never written on any path. -/
def getExtraMenuOptions (widgets : Option (List CWidget))
    (matchingTypes : List (String × String)) (callerOptions : List MenuEntry) :
    MenuHookResult :=
  match widgets with
  | none => { callerOptions := callerOptions, localOptions := callerOptions }
  | some ws =>
    let conv := convertToInputArray ws matchingTypes
    let filtered := callerOptions.filter keepOption
    let localFinal :=
      if conv.length ≠ 0 then filtered ++ conv ++ [MenuEntry.separator]
      else filtered
    { callerOptions := callerOptions, localOptions := localFinal }

/-- The declared input schema of a node definition: `Object.entries` of the
`required` and `optional` maps (absent maps contribute nothing, like
`inputTypes[type] || []`). -/
structure InputDecl where
  required : List (String × String)
  optional : List (String × String)
  deriving DecidableEq

/-- Node-definition data, as far as core_cozy_menu.js reads it: the registered
name and the optional `input` schema. -/
structure NodeData where
  name : String
  input : Option InputDecl
  deriving DecidableEq

/-- The `matchingTypes` list core_cozy_menu.js computes: required then
optional entries, empty when `nodeData.input` is absent. -/
def cozyMatchingTypes (nd : NodeData) : List (String × String) :=
  match nd.input with
  | none => []
  | some d => d.required ++ d.optional

/-- core_cozy_menu.js `beforeRegisterNodeDef`: returns early when the name
does not include "(JOV)"; when `nodeData.input` is present it computes
`matchingTypes` and returns early if that list is empty; otherwise (including
the case of an absent `input`, where `matchingTypes` stays `[]`) it installs
the `getExtraMenuOptions` hook.  `some mt` means the hook is installed with
that captured `matchingTypes`; `none` means the node type is left
unmodified. -/
def cozyBeforeRegisterNodeDef (nd : NodeData) :
    Option (List (String × String)) :=
  if !(jsIncludes nd.name "(JOV)") then none
  else
    match nd.input with
    | some d =>
      let matching := d.required ++ d.optional
      if matching.length = 0 then none else some matching
    | none => some []

/-! Theorems.  Each claim of the specification is settled below; helper
lemmas shared between several results come first. -/

/-- Helper: when any step of the downstream resolution chain of
`onConnectionsChange` fails, the handler returns early with the state
unchanged and no error. -/
theorem onConnectionsChange_resolution_failure (s : QueueState) (li : LinkInfo)
    (g : List (Nat × DNode)) (h : resolveDownstreamWidget g li = none) :
    onConnectionsChange s TypeSlot.Output 0 TypeSlotEvent.Connect (some li) g
      = (s, none) := by
  simp [onConnectionsChange, h]

/-- C1 (counterexample): the claim predicts rejection exactly when the output
socket still bears the placeholder AND the list text differs from the joined
enumeration values.  Here both hold — fresh node (placeholder name), queue
text "x", downstream COMBO widget with values ["a","b"] — yet the gate does
not reject: the JS `&&` short-circuits on `this.outputs[0].name != _prefix`
being false and the handler falls through. -/
theorem onConnectOutput_C1_counterexample :
    (initState 1 "x" 0).outputs0Name = placeholderGlyph ∧
    (initState 1 "x" 0).queueText ≠ jsJoinNewline ["a", "b"] ∧
    onConnectOutput (initState 1 "x" 0) 0 "COMBO" ⟨"sel"⟩
      { inputs := none,
        widgets := some [{ name := "sel", type := "COMBO", origType := none,
                           options := some { values := some ["a", "b"] } }] }
      ≠ ConnectOutcome.reject := by decide

/-- C1 (amended): since the `widget_queue` node property is never assigned,
the gate never rejects a link.  For output 0 and a COMBO input it throws a
TypeError when the downstream widgets array is missing; otherwise it falls
through (accepting) exactly when the output socket still bears the placeholder
glyph, and throws when the socket has been renamed (the text comparison is
never reached). -/
theorem onConnectOutput_C1_amended (s : QueueState) (slot : InputSlotRec)
    (node : DNode) (hwq : s.widget_queue_assigned = false) :
    (∀ oi it, onConnectOutput s oi it slot node ≠ ConnectOutcome.reject) ∧
    (node.widgets = none →
      onConnectOutput s 0 "COMBO" slot node = ConnectOutcome.thrown) ∧
    (∀ ws, node.widgets = some ws →
      (onConnectOutput s 0 "COMBO" slot node = ConnectOutcome.fallthrough ↔
        s.outputs0Name = placeholderGlyph)) := by
  refine ⟨?_, ?_, ?_⟩
  · intro oi it
    by_cases h0 : oi = 0
    · subst h0
      by_cases hc : it = "COMBO"
      · subst hc
        cases hW : node.widgets with
        | none => simp [onConnectOutput, hW]
        | some ws =>
          by_cases hname : s.outputs0Name = placeholderGlyph
          · simp [onConnectOutput, hW, hname]
          · simp [onConnectOutput, hW, hname, hwq]
      · simp [onConnectOutput, hc]
    · simp [onConnectOutput, h0]
  · intro hW
    simp [onConnectOutput, hW]
  · intro ws hW
    by_cases hname : s.outputs0Name = placeholderGlyph
    · simp [onConnectOutput, hW, hname]
    · simp [onConnectOutput, hW, hname, hwq]

/-- C1 (witness): the amended theorem applied to a fresh node and a downstream
node with no widgets array: the gate throws. -/
theorem onConnectOutput_C1_amended_witness :
    (initState 1 "x" 0).widget_queue_assigned = false ∧
    onConnectOutput (initState 1 "x" 0) 0 "COMBO" ⟨"sel"⟩ ⟨none, none⟩
      = ConnectOutcome.thrown :=
  ⟨rfl, (onConnectOutput_C1_amended (initState 1 "x" 0) ⟨"sel"⟩ ⟨none, none⟩
    rfl).2.1 rfl⟩

/-- C2 (code evaluation at the failing input): a freshly created node whose Q
widget holds "a\nb\nc" receives an input event.  `update_list` resets the
cursor, clears the current label and sends the reset command, but it only
writes the length into the dead field `data_count`; `data_all` stays `[]`, so
the recomputed report is "[1 / 0]\n" — not the "[1 / 3]\n" the claim (and the
evident intent of `update_list`) states. -/
theorem widget_queue_input_C2_eval :
    (widget_queue_input
      { initState 7 "a\nb\nc" 0 with widget_report := "old" }).data_all = [] ∧
    (widget_queue_input
      { initState 7 "a\nb\nc" 0 with widget_report := "old" }).data_count = some 3 ∧
    (widget_queue_input
      { initState 7 "a\nb\nc" 0 with widget_report := "old" }).data_index = 1 ∧
    (widget_queue_input
      { initState 7 "a\nb\nc" 0 with widget_report := "old" }).data_current = "" ∧
    (widget_queue_input
      { initState 7 "a\nb\nc" 0 with widget_report := "old" }).widget_report
      = "[1 / 0]\n" ∧
    (widget_queue_input
      { initState 7 "a\nb\nc" 0 with widget_report := "old" }).commands
      = [(7, "reset")] := by decide

/-- C3 (counterexample): the claim says no handler of the component has a
fatal path, naming `python_queue_done` among its sources; but on every
matching done event the handler dereferences the never-assigned
`self.widget_queue` and throws a TypeError. -/
theorem python_queue_done_C3_counterexample :
    python_queue_done (initState 5 "" 0) ⟨5⟩
      = (initState 5 "" 0, some JSError.typeError) := by decide

/-- C3 (amended): the ping handler ignores mismatched ids with unchanged
state, the done handler ignores mismatched ids, and `onConnectionsChange`
returns early with unchanged state when downstream resolution fails — but the
component does have fatal paths: `python_queue_done` throws a TypeError on
every matching event (the `widget_queue` property is never assigned) and
`onConnectOutput` throws on a COMBO attempt when the downstream widgets array
is missing. -/
theorem queue_handlers_C3_amended :
    (∀ s ev, ev.id ≠ s.id → python_queue_ping s ev = s) ∧
    (∀ s ev, ev.id ≠ s.id → python_queue_done s ev = (s, none)) ∧
    (∀ s ev, ev.id = s.id → s.widget_queue_assigned = false →
      python_queue_done s ev = (s, some JSError.typeError)) ∧
    (∀ s li g, resolveDownstreamWidget g li = none →
      onConnectionsChange s TypeSlot.Output 0 TypeSlotEvent.Connect (some li) g
        = (s, none)) ∧
    (∀ s slot node, s.widget_queue_assigned = false → node.widgets = none →
      onConnectOutput s 0 "COMBO" slot node = ConnectOutcome.thrown) := by
  refine ⟨?_, ?_, ?_, ?_, ?_⟩
  · intro s ev h
    simp [python_queue_ping, h]
  · intro s ev h
    simp [python_queue_done, h]
  · intro s ev h hwq
    simp [python_queue_done, h, hwq]
  · intro s li g h
    exact onConnectionsChange_resolution_failure s li g h
  · intro s slot node hwq hW
    simp [onConnectOutput, hW]

/-- C3 (witness): the amended theorem applied to a ping event addressed to a
different node id: the state is unchanged. -/
theorem queue_handlers_C3_amended_witness :
    (⟨3, 1, [], ""⟩ : PingEvent).id ≠ (initState 2 "" 0).id ∧
    python_queue_ping (initState 2 "" 0) ⟨3, 1, [], ""⟩ = initState 2 "" 0 :=
  ⟨by decide,
    queue_handlers_C3_amended.1 (initState 2 "" 0) ⟨3, 1, [], ""⟩ (by decide)⟩

/-- C4 (code evaluation at the failing input): the caller passes a menu
containing a pre-existing "Convert W to input" entry, and the node has a
widget Q matching a declared input.  Because `options = options.filter(...)`
rebinds the local variable to a fresh copy and `push` mutates that copy, the
caller's array is returned unchanged — the old Convert entry is still there
and the new conversion entry (labelled "Convsert Q to input" in the source)
never reaches it; the stripped-and-extended list exists only in the discarded
local array. -/
theorem getExtraMenuOptions_C4_eval :
    getExtraMenuOptions
      (some [{ name := "Q", type := "STRING", forceInput := none, menu := none }])
      [("Q", "STRING")]
      [MenuEntry.entry "Convert W to input" (MenuAction.extAction 0)]
      = { callerOptions :=
            [MenuEntry.entry "Convert W to input" (MenuAction.extAction 0)],
          localOptions :=
            [MenuEntry.entry "Convsert Q to input"
              (MenuAction.convertAction "Q" "STRING"),
             MenuEntry.separator] } := by decide

/-- C5 (counterexample): the claim says the output socket is renamed if and
only if the downstream widget is an enumerated-choice widget.  Here the
resolved widget "W" is a plain STRING widget (origType absent), yet the
handler renames output 0 from the placeholder to "W". -/
theorem onConnectionsChange_C5_counterexample :
    onConnectionsChange (initState 3 "q" 0) TypeSlot.Output 0
      TypeSlotEvent.Connect (some ⟨9, 0⟩)
      [(9, { inputs := some [⟨"W"⟩],
             widgets := some [{ name := "W", type := "STRING", origType := none,
                                options := none }] })]
      = ({ initState 3 "q" 0 with outputs0Name := "W" }, none) ∧
    "W" ≠ (initState 3 "q" 0).outputs0Name := by decide

/-- C5 (amended): when every resolution step succeeds, the handler renames
output socket 0 to the downstream widget's name regardless of the widget's
type; when the widget is an enumerated-choice (combo) widget the handler then
throws a TypeError — `widget.options.values` or the assignment to
`this.widget_queue.value` dereferences `undefined` — so the rename sticks but
the queue text replacement, cursor reset and reset command never happen; for a
non-combo widget the handler completes with only the rename. -/
theorem onConnectionsChange_C5_amended (s : QueueState) (li : LinkInfo)
    (g : List (Nat × DNode)) (widget : DWidget)
    (hres : resolveDownstreamWidget g li = some widget)
    (hwq : s.widget_queue_assigned = false) :
    (¬(widget.origType = some "combo" ∨ widget.type = "COMBO") →
      onConnectionsChange s TypeSlot.Output 0 TypeSlotEvent.Connect (some li) g
        = ({ s with outputs0Name := widget.name }, none)) ∧
    ((widget.origType = some "combo" ∨ widget.type = "COMBO") →
      onConnectionsChange s TypeSlot.Output 0 TypeSlotEvent.Connect (some li) g
        = ({ s with outputs0Name := widget.name }, some JSError.typeError)) := by
  constructor
  · intro hnc
    simp [onConnectionsChange, hres, hnc]
  · intro hc
    cases ho : widget.options with
    | none => simp [onConnectionsChange, hres, hc, ho]
    | some o =>
      cases hv : o.values with
      | none => simp [onConnectionsChange, hres, hc, ho, hv]
      | some vs => simp [onConnectionsChange, hres, hc, ho, hv, hwq]

/-- C5 (witness): the amended theorem applied to a resolvable combo widget:
the socket is renamed to "sel" and the handler throws. -/
theorem onConnectionsChange_C5_amended_witness :
    resolveDownstreamWidget
      [(9, { inputs := some [⟨"sel"⟩],
             widgets := some [{ name := "sel", type := "COMBO", origType := none,
                                options := some { values := some ["a", "b"] } }] })]
      ⟨9, 0⟩
      = some { name := "sel", type := "COMBO", origType := none,
               options := some { values := some ["a", "b"] } } ∧
    onConnectionsChange (initState 6 "" 0) TypeSlot.Output 0
      TypeSlotEvent.Connect (some ⟨9, 0⟩)
      [(9, { inputs := some [⟨"sel"⟩],
             widgets := some [{ name := "sel", type := "COMBO", origType := none,
                                options := some { values := some ["a", "b"] } }] })]
      = ({ initState 6 "" 0 with outputs0Name := "sel" }, some JSError.typeError) :=
  ⟨by decide,
    (onConnectionsChange_C5_amended (initState 6 "" 0) ⟨9, 0⟩
      [(9, { inputs := some [⟨"sel"⟩],
             widgets := some [{ name := "sel", type := "COMBO", origType := none,
                                options := some { values := some ["a", "b"] } }] })]
      { name := "sel", type := "COMBO", origType := none,
        options := some { values := some ["a", "b"] } }
      (by decide) rfl).2 (Or.inr rfl)⟩

/-- C6 (counterexample): the claim says a failed resolution also reverts the
socket name to the placeholder.  Here output 0 is named "W", a Connect event
arrives whose target node does not exist in the (empty) graph — and the
handler returns early leaving the name "W", not the placeholder. -/
theorem onConnectionsChange_C6_counterexample :
    onConnectionsChange { initState 4 "" 0 with outputs0Name := "W" }
      TypeSlot.Output 0 TypeSlotEvent.Connect (some ⟨1, 0⟩) []
      = ({ initState 4 "" 0 with outputs0Name := "W" }, none) ∧
    "W" ≠ placeholderGlyph := by decide

/-- C6 (amended): on an output-0 disconnection — a Disconnect event with link
info, or any event with absent link info — the socket name reverts to the
placeholder glyph regardless of what it was; but when resolution of a new
connection fails at any step the handler returns early with the whole state
(name included) unchanged. -/
theorem onConnectionsChange_C6_amended :
    (∀ s li g,
      onConnectionsChange s TypeSlot.Output 0 TypeSlotEvent.Disconnect (some li) g
        = ({ s with outputs0Name := placeholderGlyph }, none)) ∧
    (∀ s (event : TypeSlotEvent) g,
      onConnectionsChange s TypeSlot.Output 0 event none g
        = ({ s with outputs0Name := placeholderGlyph }, none)) ∧
    (∀ s li g, resolveDownstreamWidget g li = none →
      onConnectionsChange s TypeSlot.Output 0 TypeSlotEvent.Connect (some li) g
        = (s, none)) := by
  refine ⟨?_, ?_, ?_⟩
  · intro s li g
    simp [onConnectionsChange]
  · intro s event g
    simp [onConnectionsChange]
  · intro s li g h
    exact onConnectionsChange_resolution_failure s li g h

/-- C6 (witness): the amended theorem applied to a Connect event whose target
is missing from an empty graph: the renamed socket keeps its name. -/
theorem onConnectionsChange_C6_amended_witness :
    resolveDownstreamWidget [] (⟨1, 0⟩ : LinkInfo) = none ∧
    onConnectionsChange { initState 8 "" 0 with outputs0Name := "Z" }
      TypeSlot.Output 0 TypeSlotEvent.Connect (some ⟨1, 0⟩) []
      = ({ initState 8 "" 0 with outputs0Name := "Z" }, none) :=
  ⟨by decide,
    onConnectionsChange_C6_amended.2.2 _ ⟨1, 0⟩ [] (by decide)⟩

/-- C7: a progress event whose id matches the node overwrites `data_index`,
`data_all` and `data_current` with the payload's i, l and c fields and
recomputes the report as "[i / l.length]\nc". -/
theorem python_queue_ping_C7 (s : QueueState) (ev : PingEvent)
    (h : ev.id = s.id) :
    (python_queue_ping s ev).data_index = ev.i ∧
    (python_queue_ping s ev).data_all = ev.l ∧
    (python_queue_ping s ev).data_current = ev.c ∧
    (python_queue_ping s ev).widget_report =
      "[" ++ toString ev.i ++ " / " ++ toString ev.l.length ++ "]\n" ++ ev.c := by
  simp [python_queue_ping, update_report, h]

/-- C7 (witness): the scenario of the claim — payload
`{id: 7, i: 2, l: ["a","b","c"], c: "b"}` delivered to node 7 renders
"[2 / 3]\nb". -/
theorem python_queue_ping_C7_witness :
    (⟨7, 2, ["a", "b", "c"], "b"⟩ : PingEvent).id = (initState 7 "" 0).id ∧
    (python_queue_ping (initState 7 "" 0) ⟨7, 2, ["a", "b", "c"], "b"⟩).widget_report
      = "[2 / 3]\nb" := by
  refine ⟨rfl, ?_⟩
  have h := (python_queue_ping_C7 (initState 7 "" 0)
    ⟨7, 2, ["a", "b", "c"], "b"⟩ rfl).2.2.2
  rw [h]
  decide

/-- C8: after the VAL-widget callback runs, the hold and reset widgets are
visible (hidden flag cleared) if and only if the VAL value is exactly 0,
whatever their visibility was before. -/
theorem widget_value_callback_C8 (s : QueueState) :
    ((widget_value_callback s).holdHidden = false ↔ s.valueVal = 0) ∧
    ((widget_value_callback s).resetHidden = false ↔ s.valueVal = 0) := by
  by_cases h : s.valueVal = 0 <;> simp [widget_value_callback, h]

/-- C9: a matching progress event is applied without validating the payload,
so when the index exceeds the list length the node ends in a state with
`data_index` greater than `data_all.length`, and the report renders the
out-of-range pair. -/
theorem python_queue_ping_C9 (s : QueueState) (ev : PingEvent)
    (hid : ev.id = s.id) (hlen : ev.l.length < ev.i) :
    (python_queue_ping s ev).data_all.length
      < (python_queue_ping s ev).data_index ∧
    (python_queue_ping s ev).widget_report =
      "[" ++ toString ev.i ++ " / " ++ toString ev.l.length ++ "]\n" ++ ev.c := by
  refine ⟨?_, ?_⟩ <;> simp [python_queue_ping, update_report, hid]
  exact hlen

/-- C9 (witness): payload `{id: 11, i: 5, l: ["a","b","c"], c: "x"}` on node
11 yields cursor 5 past the 3-element list and report "[5 / 3]\nx". -/
theorem python_queue_ping_C9_witness :
    (⟨11, 5, ["a", "b", "c"], "x"⟩ : PingEvent).id = (initState 11 "" 0).id ∧
    (["a", "b", "c"] : List String).length < 5 ∧
    (python_queue_ping (initState 11 "" 0)
      ⟨11, 5, ["a", "b", "c"], "x"⟩).data_all.length
      < (python_queue_ping (initState 11 "" 0)
          ⟨11, 5, ["a", "b", "c"], "x"⟩).data_index ∧
    (python_queue_ping (initState 11 "" 0)
      ⟨11, 5, ["a", "b", "c"], "x"⟩).widget_report = "[5 / 3]\nx" := by
  have h := python_queue_ping_C9 (initState 11 "" 0)
    ⟨11, 5, ["a", "b", "c"], "x"⟩ rfl (by decide)
  exact ⟨rfl, by decide, h.1, by rw [h.2]; decide⟩

/-- C10 (counterexample): the claim says the hook is installed only when the
schema declares at least one required or optional input; but for a node
definition whose name contains "(JOV)" and whose `input` field is absent the
guard `if (inputTypes)` is skipped and the hook is installed with an empty
`matchingTypes`. -/
theorem cozy_C10_counterexample :
    (cozyBeforeRegisterNodeDef { name := "THING (JOV)", input := none }).isSome
      = true ∧
    cozyMatchingTypes { name := "THING (JOV)", input := none } = [] := by decide

/-- C10 (amended): the MenuConverter installs its context-menu hook exactly
when the registered name contains "(JOV)" and either the schema has no `input`
declaration at all or it declares at least one required or optional input; all
other node types are left unmodified. -/
theorem cozy_C10_amended (nd : NodeData) :
    (cozyBeforeRegisterNodeDef nd).isSome = true ↔
      (jsIncludes nd.name "(JOV)" = true ∧
        (nd.input = none ∨ cozyMatchingTypes nd ≠ [])) := by
  unfold cozyBeforeRegisterNodeDef cozyMatchingTypes
  by_cases hj : jsIncludes nd.name "(JOV)" = true
  · cases hi : nd.input with
    | none => simp [hj, hi]
    | some d =>
      by_cases hl : (d.required ++ d.optional).length = 0
      · simp [hj, hi, hl]
        exact List.append_eq_nil.mp (List.length_eq_zero.mp hl)
      · simp [hj, hi, hl, List.length_eq_zero]
  · simp [hj]
